/-
  Verification of the slide-layout engine of the presentAI web application
  (source: src/app.py).

  Modelling conventions (shallow embedding):
  * Python floats in the layout code are decimal literals; they are embedded
    as exact rationals (`ℚ`), so all geometry is exact arithmetic.
  * Python strings are embedded as `String` (or `List Char` where character
    level operations matter, as in `safe_filename`).
  * python-pptx side effects (appending shapes to a slide) are embedded by
    returning the list of emitted shapes; a slide is its background colour
    plus its shape list, in emission order.
  * The mutable colour globals set by `apply_theme` (DEEP_NAVY, ROYAL_BLUE,
    WARM_CORAL, TEAL, SOFT_CREAM, LIGHT_BLUE_TINT, LIGHT_CORAL_TINT) are
    embedded as a `Theme` value threaded explicitly to every builder; the
    fields correspond in that order to dark/primary/secondary/tertiary/
    light_bg/card_bg/card_alt of the selected THEMES entry.
  * A Python expression that raises (division by zero when an item count is
    zero) is embedded as `Option`: `none` means the builder raises.
  * Font sizes, boldness and text colours are not represented on shapes;
    positions, sizes, fill colours and the text runs are.
-/
import Mathlib

namespace PresentAI

/-- 24-bit RGB colour, as handed to `RGBColor(r, g, b)` in app.py. -/
structure RGB where
  r : Nat
  g : Nat
  b : Nat
deriving DecidableEq, Repr

/-! Static (theme-independent) colours, app.py lines 92–105. -/

def CHARCOAL : RGB := ⟨0x1A, 0x1A, 0x2E⟩
def SLATE : RGB := ⟨0x4A, 0x55, 0x68⟩
def MEDIUM_GRAY : RGB := ⟨0x94, 0xA3, 0xB8⟩
def WHITE : RGB := ⟨0xFF, 0xFF, 0xFF⟩
def CARD_BORDER : RGB := ⟨0xDD, 0xDD, 0xDD⟩

/-- Corner-radius ratio for rounded cards (`CARD_RADIUS = 0.04`). -/
def CARD_RADIUS : ℚ := 0.04

/-! Layout grid constants, app.py lines 539–557. -/

def TOTAL_SLIDES : Nat := 10

def SW : ℚ := 13.333
def SH : ℚ := 7.5
def MG : ℚ := 0.60
def CT : ℚ := 1.80
def CW : ℚ := SW - 2 * MG
def GAP : ℚ := 0.30
def IMG_SZ : ℚ := 5.0

def IMG_RX : ℚ := SW - MG - IMG_SZ
def IMG_TOP : ℚ := CT
def TXT_BW : ℚ := IMG_RX - MG - GAP

def SIDE_W : ℚ := 5.0
def SIDE_H : ℚ := SH

/-- The 7-colour palette installed by `apply_theme`: fields are the THEMES
dict keys dark/primary/secondary/tertiary/light_bg/card_bg/card_alt. -/
structure Theme where
  dark : RGB
  primary : RGB
  secondary : RGB
  tertiary : RGB
  light_bg : RGB
  card_bg : RGB
  card_alt : RGB
deriving DecidableEq, Repr

/-- THEMES["indigo"], app.py lines 562–568. -/
def indigoTheme : Theme :=
  ⟨⟨0x2D, 0x00, 0x4F⟩, ⟨0x4B, 0x00, 0x82⟩, ⟨0x8B, 0x5C, 0xF6⟩,
   ⟨0x6B, 0x21, 0xA8⟩, ⟨0xF8, 0xF7, 0xFC⟩, ⟨0xFF, 0xFF, 0xFF⟩,
   ⟨0xF3, 0xF0, 0xFA⟩⟩

/-- THEMES["nature"], app.py lines 569–575. -/
def natureTheme : Theme :=
  ⟨⟨0x2D, 0x5A, 0x3A⟩, ⟨0x4A, 0x7C, 0x59⟩, ⟨0x8B, 0x69, 0x14⟩,
   ⟨0x5A, 0x9E, 0x6F⟩, ⟨0xFB, 0xF9, 0xF5⟩, ⟨0xFF, 0xFF, 0xFF⟩,
   ⟨0xF5, 0xF2, 0xEB⟩⟩

/-- THEMES["moss"], app.py lines 576–582. -/
def mossTheme : Theme :=
  ⟨⟨0x3A, 0x43, 0x18⟩, ⟨0x56, 0x61, 0x29⟩, ⟨0x8B, 0x73, 0x55⟩,
   ⟨0x7A, 0x8B, 0x45⟩, ⟨0xF8, 0xF9, 0xF5⟩, ⟨0xFF, 0xFF, 0xFF⟩,
   ⟨0xF2, 0xF3, 0xEE⟩⟩

/-- THEMES["navy"], app.py lines 583–589. -/
def navyTheme : Theme :=
  ⟨⟨0x0F, 0x0A, 0x3A⟩, ⟨0x1A, 0x12, 0x64⟩, ⟨0x4A, 0x45, 0xB0⟩,
   ⟨0x2E, 0x28, 0x90⟩, ⟨0xF7, 0xF7, 0xFC⟩, ⟨0xFF, 0xFF, 0xFF⟩,
   ⟨0xF0, 0xF0, 0xF8⟩⟩

/-- The THEMES dict (app.py lines 561–590) as a partial lookup. -/
def THEMES (name : String) : Option Theme :=
  if name = "indigo" then some indigoTheme
  else if name = "nature" then some natureTheme
  else if name = "moss" then some mossTheme
  else if name = "navy" then some navyTheme
  else none

/-- `apply_theme` (app.py lines 593–603): `THEMES.get(name, THEMES["indigo"])`,
returned as a value instead of installed into module globals. -/
def apply_theme (name : String) : Theme :=
  (THEMES name).getD indigoTheme

/-! ## Filename sanitisation (`safe_filename`, app.py lines 621–625)

Python's regex classes `\w` and `\s` are modelled by executable character
predicates (the ASCII portions of the Unicode classes). -/

/-- Python regex class `\s`: whitespace characters. -/
def pyIsSpace (c : Char) : Bool :=
  c = ' ' || c = '\t' || c = '\n' || c = '\r' || c = '\x0b' || c = '\x0c'

/-- Python regex class `\w`: word characters (letters, digits, underscore). -/
def pyIsWord (c : Char) : Bool :=
  c.isAlpha || c.isDigit || c = '_'

/-- Worker for `re.sub(r"\s+", "_", text)`: the flag records whether the
previous character was part of a whitespace run already replaced by `_`. -/
def collapseWsAux : Bool → List Char → List Char
  | _, [] => []
  | prevSpace, c :: cs =>
    if pyIsSpace c then
      if prevSpace then collapseWsAux true cs
      else '_' :: collapseWsAux true cs
    else c :: collapseWsAux false cs

/-- `re.sub(r"\s+", "_", text)`: each maximal whitespace run becomes one `_`. -/
def collapseWs (l : List Char) : List Char := collapseWsAux false l

/-- `safe_filename` (app.py lines 621–625): replace newlines by spaces, strip
characters outside `\w`, `\s` and `-`, collapse whitespace runs to `_`,
truncate to 50 characters, and fall back to "presentation" when empty. -/
def safe_filename (text : List Char) : List Char :=
  let t1 := text.map (fun c => if c = '\n' ∨ c = '\r' then ' ' else c)
  let t2 := t1.filter (fun c => pyIsWord c || pyIsSpace c || c = '-')
  let t3 := collapseWs t2
  let t4 := t3.take 50
  if t4.isEmpty then "presentation".toList else t4

/-! ## Shape model

One `Shape` per visual element emitted by the primitive renderers; positions
and sizes in canvas inches (`Pt(x)` converts to `x / 72` inches). -/

/-- The python-pptx element kinds used by app.py: text boxes, plain and
rounded rectangles, ovals, and embedded pictures. -/
inductive ShapeKind where
  | tbox
  | rect
  | rrect
  | oval
  | pic
deriving DecidableEq, Repr

/-- A visual element: kind, position `(x, y)`, size `(w, h)`, optional solid
fill colour, and the texts of its runs in order. -/
structure Shape where
  kind : ShapeKind
  x : ℚ
  y : ℚ
  w : ℚ
  h : ℚ
  fill : Option RGB
  runs : List String
deriving DecidableEq, Repr

/-- A slide: its background fill plus the shapes in emission order. -/
structure Slide where
  bg : RGB
  shapes : List Shape
deriving DecidableEq, Repr

/-- An image asset delivered to the builder; only its presence matters for
layout, so it is modelled as an opaque tag. -/
abbrev Img := Nat

/-- One point in inches. -/
def Pt (x : ℚ) : ℚ := x / 72

/-- `colors[i % len(colors)]`-style indexing into a colour cycle. -/
def pick (cs : List RGB) (i : Nat) : RGB := cs.getD i WHITE

/-! ## Primitive renderers (app.py lines 887–1077) -/

/-- `add_slide_number` (lines 887–897): textbox in the bottom-right corner
with the single run `"{num} / {total}"`. -/
def add_slide_number (num total : Nat) : Shape :=
  ⟨.tbox, SW - MG - 1.0, SH - 0.55, 1.0, 0.35, none,
   [toString num ++ " / " ++ toString total]⟩

/-- `add_accent_line` (lines 900–904): a thin filled rectangle. -/
def add_accent_line (left top width : ℚ) (color : RGB) : Shape :=
  ⟨.rect, left, top, width, 0.06, some color, []⟩

/-- `add_section_title` (lines 907–922) at the default position. -/
def add_section_title (text : String) : Shape :=
  ⟨.tbox, MG, MG, CW, 0.90, none, [text]⟩

/-- `add_circle` (lines 925–930): an oval of equal width and height. -/
def add_circle (left top size : ℚ) (color : RGB) : Shape :=
  ⟨.oval, left, top, size, size, some color, []⟩

/-- `add_circle` followed by writing a centred label into its text frame, as
done for numbered badges (e.g. lines 1277–1289). -/
def add_circle_label (left top size : ℚ) (color : RGB) (label : String) :
    Shape :=
  ⟨.oval, left, top, size, size, some color, [label]⟩

/-- The grey fill of the image placeholder (lines 943 and 1036). -/
def PLACEHOLDER_GRAY : RGB := ⟨0xF0, 0xF1, 0xF5⟩

/-- `add_square_image` (lines 933–954): embed the picture when bytes are
present, otherwise a grey rectangle of the same size labelled "IMAGE". -/
def add_square_image (image_bytes : Option Img) (left top : ℚ)
    (size : ℚ := IMG_SZ) : Shape :=
  match image_bytes with
  | some _ => ⟨.pic, left, top, size, size, none, []⟩
  | none => ⟨.rect, left, top, size, size, some PLACEHOLDER_GRAY, ["IMAGE"]⟩

/-- `add_bullet_text` (lines 957–982): one textbox; each bullet contributes a
glyph run `"  •  "` followed by its text run. -/
def add_bullet_text (left top width height : ℚ) (bullets : List String) :
    Shape :=
  ⟨.tbox, left, top, width, height, none,
   bullets.flatMap (fun b => ["  •  ", b])⟩

/-- `add_card` (lines 985–1000): rounded rectangle plus, when an accent
colour is given, a thin bar along the top edge. -/
def add_card (left top width height : ℚ) (bg_color : RGB)
    (accent_color : Option RGB) : List Shape :=
  ⟨.rrect, left, top, width, height, some bg_color, []⟩ ::
    match accent_color with
    | some ac => [⟨.rect, left + 0.08, top, width - 0.16, 0.07, some ac, []⟩]
    | none => []

/-- `add_card_with_bullets` (lines 1003–1022): a card, its title textbox and
its bullet list. -/
def add_card_with_bullets (left top width height : ℚ) (title : String)
    (bullets : List String) (bg_color : RGB) (accent_color : Option RGB) :
    List Shape :=
  add_card left top width height bg_color accent_color ++
    [⟨.tbox, left + 0.20, top + 0.15, width - 0.40, 0.50, none, [title]⟩,
     add_bullet_text (left + 0.15) (top + 0.60) (width - 0.30)
       (height - 0.70) bullets]

/-- `add_side_image` (lines 1025–1047): full-height image flush to an edge
(`x = 0` when `side == "left"`, else `x = SW - width`), with the same
"IMAGE"-labelled grey placeholder when the bytes are absent. -/
def add_side_image (image_bytes : Option Img) (side : String)
    (width : ℚ := SIDE_W) (height : ℚ := SIDE_H) : Shape :=
  let left : ℚ := if side = "left" then 0 else SW - width
  match image_bytes with
  | some _ => ⟨.pic, left, 0, width, height, none, []⟩
  | none => ⟨.rect, left, 0, width, height, some PLACEHOLDER_GRAY, ["IMAGE"]⟩

/-- `add_dot_badge` (lines 1050–1057): a 0.12-inch circle. -/
def add_dot_badge (left top : ℚ) (color : RGB) : Shape :=
  ⟨.oval, left, top, 0.12, 0.12, some color, []⟩

/-- `add_card_left_accent` (lines 1060–1077): rounded card plus, when an
accent colour is given, a thin bar along the left edge. -/
def add_card_left_accent (left top width height : ℚ) (bg_color : RGB)
    (accent_color : Option RGB) : List Shape :=
  ⟨.rrect, left, top, width, height, some bg_color, []⟩ ::
    match accent_color with
    | some ac =>
      [⟨.rect, left, top + 0.08, 0.07, height - 0.16, some ac, []⟩]
    | none => []

/-! ## Slide data (the per-slide JSON payloads, §3 of the spec) -/

/-- `{"title": ..., "bullets": [...]}` — a card, a step, or one side of the
comparison slide. -/
structure CardData where
  title : String
  bullets : List String
deriving DecidableEq, Repr

/-- Payload of slides 2, 3, 5 and 10: `{"title": ..., "cards": [...]}`. -/
structure CardsSlideData where
  title : String
  cards : List CardData
deriving DecidableEq, Repr

/-- Payload of slide 4: `{"title": ..., "bullets": [...]}`. -/
structure BulletsSlideData where
  title : String
  bullets : List String
deriving DecidableEq, Repr

/-- Payload of slides 6 and 9; `stat_number`/`stat_label` are read with
`.get(..., "")` so they are optional. -/
structure StatSlideData where
  title : String
  bullets : List String
  stat_number : Option String
  stat_label : Option String
deriving DecidableEq, Repr

/-- Payload of slide 7: `{"title": ..., "left": {...}, "right": {...}}`. -/
structure CompareSlideData where
  title : String
  left : CardData
  right : CardData
deriving DecidableEq, Repr

/-- Payload of slide 8: `{"title": ..., "steps": [...]}`. -/
structure StepsSlideData where
  title : String
  steps : List CardData
deriving DecidableEq, Repr

/-! ## Slide template builders (app.py lines 1082–1752)

Each `slide_*` function returns the built slide; builders whose geometry
divides by an item count return `none` when that count is zero, which is
where the Python raises `ZeroDivisionError`. -/

/-- `slide_1_hero_title` (lines 1082–1124): full-height side image left,
accent line, title, optional subtitle. -/
def slide_1_hero_title (t : Theme) (title subtitle : String)
    (image_bytes : Option Img) : Slide :=
  let text_left : ℚ := SIDE_W + 1.00
  let text_w : ℚ := SW - text_left - 0.80
  { bg := t.light_bg,
    shapes :=
      [add_side_image image_bytes "left",
       ⟨.rect, text_left, 2.40, 2.80, 0.08, some t.secondary, []⟩,
       ⟨.tbox, text_left, 2.70, text_w, 2.60, none, [title]⟩] ++
      (if subtitle = "" then []
       else [⟨.tbox, text_left, 5.70, text_w, 0.80, none, [subtitle]⟩]) ++
      [add_slide_number 1 TOTAL_SLIDES] }

/-- `slide_2a_dot_badge_rows` (lines 1127–1157): up to three dot-badge rows,
each a badge, a heading textbox and a bullet textbox. -/
def slide_2a_dot_badge_rows (t : Theme) (data : CardsSlideData) : Slide :=
  let cards := data.cards.take 3
  let row_h : ℚ := 1.55
  let row_gap : ℚ := 0.20
  let colors := [t.primary, t.secondary, t.tertiary]
  { bg := t.light_bg,
    shapes :=
      add_section_title data.title ::
      (cards.enum.flatMap (fun ic =>
        let y : ℚ := CT + ic.1 * (row_h + row_gap)
        let color := pick colors (ic.1 % 3)
        [add_dot_badge (MG + 0.02) (y + 0.07) color,
         ⟨.tbox, MG + 0.28, y, CW - 0.28, 0.40, none, [ic.2.title]⟩,
         add_bullet_text (MG + 0.28) (y + 0.42) (CW - 0.28) (row_h - 0.45)
           ic.2.bullets])) ++
      [add_slide_number 2 TOTAL_SLIDES] }

/-- `slide_2b_left_accent_cards` (lines 1160–1191): up to three full-width
left-accent cards; the card height divides by the card count, so an empty
card list raises (`none`). -/
def slide_2b_left_accent_cards (t : Theme) (data : CardsSlideData) :
    Option Slide :=
  let cards := data.cards.take 3
  let n := cards.length
  if n = 0 then none else
  let card_gap : ℚ := 0.20
  let card_h : ℚ := min ((SH - CT - MG - ((n : ℚ) - 1) * card_gap) / n) 1.60
  let colors := [t.primary, t.secondary, t.tertiary]
  some
    { bg := t.light_bg,
      shapes :=
        add_section_title data.title ::
        (cards.enum.flatMap (fun ic =>
          let y : ℚ := CT + ic.1 * (card_h + card_gap)
          let color := pick colors (ic.1 % 3)
          add_card_left_accent MG y CW card_h WHITE (some color) ++
            [⟨.tbox, MG + 0.30, y + 0.12, CW - 0.50, 0.40, none,
              [ic.2.title]⟩,
             add_bullet_text (MG + 0.25) (y + 0.50) (CW - 0.45)
               (card_h - 0.60) ic.2.bullets])) ++
        [add_slide_number 2 TOTAL_SLIDES] }

/-- `slide_3a_three_cards_row` (lines 1194–1210): up to three equal-width
cards in a row; the card width divides by the card count. -/
def slide_3a_three_cards_row (t : Theme) (data : CardsSlideData) :
    Option Slide :=
  let cards := data.cards.take 3
  let n := cards.length
  if n = 0 then none else
  let card_w : ℚ := (CW - ((n : ℚ) - 1) * GAP) / n
  let card_h : ℚ := 5.00
  let colors := [t.primary, t.secondary, t.tertiary]
  some
    { bg := t.light_bg,
      shapes :=
        add_section_title data.title ::
        (cards.enum.flatMap (fun ic =>
          let x : ℚ := MG + ic.1 * (card_w + GAP)
          add_card_with_bullets x CT card_w card_h ic.2.title ic.2.bullets
            WHITE (some (pick colors (ic.1 % 3))))) ++
        [add_slide_number 3 TOTAL_SLIDES] }

/-- `slide_3b_four_cards_row` (lines 1213–1229): up to four equal-width
tinted cards in a row; the card width divides by the card count. -/
def slide_3b_four_cards_row (t : Theme) (data : CardsSlideData) :
    Option Slide :=
  let cards := data.cards.take 4
  let n := min cards.length 4
  if n = 0 then none else
  let card_w : ℚ := (CW - ((n : ℚ) - 1) * GAP) / n
  let card_h : ℚ := 5.00
  let colors := [t.primary, t.secondary, t.tertiary, t.primary]
  let fills := [t.card_bg, t.card_alt, t.card_bg, t.card_alt]
  some
    { bg := t.light_bg,
      shapes :=
        add_section_title data.title ::
        ((cards.take n).enum.flatMap (fun ic =>
          let x : ℚ := MG + ic.1 * (card_w + GAP)
          add_card_with_bullets x CT card_w card_h ic.2.title ic.2.bullets
            (pick fills ic.1) (some (pick colors (ic.1 % 4))))) ++
        [add_slide_number 3 TOTAL_SLIDES] }

/-- `slide_4a_image_left_bullets` (lines 1232–1241). -/
def slide_4a_image_left_bullets (t : Theme) (data : BulletsSlideData)
    (image_bytes : Option Img) : Slide :=
  { bg := t.light_bg,
    shapes :=
      [add_section_title data.title,
       add_square_image image_bytes MG CT,
       add_bullet_text (MG + IMG_SZ + GAP) CT TXT_BW 5.00 data.bullets,
       add_slide_number 4 TOTAL_SLIDES] }

/-- `slide_4b_bullets_image_right` (lines 1244–1252). -/
def slide_4b_bullets_image_right (t : Theme) (data : BulletsSlideData)
    (image_bytes : Option Img) : Slide :=
  { bg := t.light_bg,
    shapes :=
      [add_section_title data.title,
       add_square_image image_bytes IMG_RX IMG_TOP,
       add_bullet_text MG CT TXT_BW 5.00 data.bullets,
       add_slide_number 4 TOTAL_SLIDES] }

/-- `slide_5a_grid_badges` (lines 1255–1290): 2×2 card grid with numbered
circle badges; all geometry is fixed, so the builder is total. -/
def slide_5a_grid_badges (t : Theme) (data : CardsSlideData) : Slide :=
  let cards := data.cards.take 4
  let card_w : ℚ := (CW - GAP) / 2
  let v_gap : ℚ := 0.24
  let card_h : ℚ := (5.00 - v_gap) / 2
  let positions : List (ℚ × ℚ) :=
    [(MG, CT), (MG + card_w + GAP, CT), (MG, CT + card_h + v_gap),
     (MG + card_w + GAP, CT + card_h + v_gap)]
  let fills := [WHITE, t.card_bg, t.card_bg, WHITE]
  { bg := t.light_bg,
    shapes :=
      add_section_title data.title ::
      (cards.enum.flatMap (fun ic =>
        let lx := (positions.getD ic.1 (0, 0)).1
        let ly := (positions.getD ic.1 (0, 0)).2
        add_card_with_bullets lx ly card_w card_h ic.2.title ic.2.bullets
          (pick fills ic.1) (some t.tertiary) ++
          [add_circle_label (lx + card_w - 0.55) (ly + 0.10) 0.40 t.tertiary
            (toString (ic.1 + 1))])) ++
      [add_slide_number 5 TOTAL_SLIDES] }

/-- `slide_5b_stat_columns` (lines 1293–1330): up to four stat columns; the
card width divides by the card count. -/
def slide_5b_stat_columns (t : Theme) (data : CardsSlideData) :
    Option Slide :=
  let cards := data.cards.take 4
  let n := cards.length
  if n = 0 then none else
  let card_w : ℚ := (CW - ((n : ℚ) - 1) * GAP) / n
  let card_h : ℚ := 5.00
  let colors := [t.primary, t.secondary, t.tertiary, t.primary]
  some
    { bg := t.light_bg,
      shapes :=
        add_section_title data.title ::
        (cards.enum.flatMap (fun ic =>
          let x : ℚ := MG + ic.1 * (card_w + GAP)
          let color := pick colors (ic.1 % 4)
          let line_w : ℚ := min 0.8 (card_w * 0.35)
          let line_y : ℚ := CT + 0.95
          add_card x CT card_w card_h WHITE (some color) ++
            [⟨.tbox, x + 0.15, CT + 0.20, card_w - 0.30, 0.65, none,
              [ic.2.title]⟩,
             add_accent_line (x + (card_w - line_w) / 2) line_y line_w color,
             add_bullet_text (x + 0.10) (line_y + 0.18) (card_w - 0.20)
               (card_h - (line_y - CT) - 0.33) ic.2.bullets])) ++
        [add_slide_number 5 TOTAL_SLIDES] }

/-- The dark stat banner shared by the two slide-6 variants (lines 1350–1371
and 1413–1434): a full-width bar holding the stat number and label runs. -/
def stat_banner (t : Theme) (banner_top banner_h : ℚ)
    (data : StatSlideData) : Shape :=
  ⟨.rect, 0, banner_top, SW, banner_h, some t.dark,
   [data.stat_number.getD "", "  " ++ data.stat_label.getD ""]⟩

/-- `slide_6a_bullets_banner` (lines 1333–1372): image left, bullets right,
dark stat banner at the bottom; fixed geometry, total. -/
def slide_6a_bullets_banner (t : Theme) (data : StatSlideData)
    (image_bytes : Option Img) : Slide :=
  let banner_h : ℚ := 1.10
  let banner_top : ℚ := SH - banner_h
  let img_sz : ℚ := 4.50
  let txt_x : ℚ := MG + img_sz + GAP
  let txt_w : ℚ := SW - txt_x - MG
  let bullet_h : ℚ := banner_top - CT - 0.20
  { bg := t.light_bg,
    shapes :=
      [add_section_title data.title,
       add_square_image image_bytes MG CT img_sz,
       add_bullet_text txt_x CT txt_w bullet_h data.bullets,
       stat_banner t banner_top banner_h data,
       add_slide_number 6 TOTAL_SLIDES] }

/-- `slide_6b_cards_banner` (lines 1375–1435): image right, up to five
stacked single-bullet cards left, stat banner; the card height divides by
`min(len(bullets), 5)`, so an empty bullet list raises (`none`). -/
def slide_6b_cards_banner (t : Theme) (data : StatSlideData)
    (image_bytes : Option Img) : Option Slide :=
  let banner_h : ℚ := 1.10
  let banner_top : ℚ := SH - banner_h
  let img_sz : ℚ := 4.50
  let card_w : ℚ := IMG_RX - MG - GAP
  let bullets := data.bullets
  let n := min bullets.length 5
  if n = 0 then none else
  let avail_h : ℚ := banner_top - CT - 0.20
  let card_gap : ℚ := 0.15
  let card_h : ℚ := min ((avail_h - ((n : ℚ) - 1) * card_gap) / n) 0.80
  let colors := [t.primary, t.secondary, t.tertiary, t.primary, t.secondary]
  some
    { bg := t.light_bg,
      shapes :=
        [add_section_title data.title,
         add_square_image image_bytes IMG_RX IMG_TOP img_sz] ++
        ((bullets.take n).enum.flatMap (fun ib =>
          let y : ℚ := CT + ib.1 * (card_h + card_gap)
          add_card MG y card_w card_h WHITE (some (pick colors (ib.1 % 5))) ++
            [⟨.tbox, MG + 0.25, y + 0.12, card_w - 0.50, card_h - 0.24, none,
              ["  •  ", ib.2]⟩])) ++
        [stat_banner t banner_top banner_h data,
         add_slide_number 6 TOTAL_SLIDES] }

/-- `slide_7a_two_cards` (lines 1438–1454): two tinted comparison cards. -/
def slide_7a_two_cards (t : Theme) (data : CompareSlideData) : Slide :=
  let card_w : ℚ := (CW - GAP) / 2
  let card_h : ℚ := 5.00
  { bg := t.light_bg,
    shapes :=
      add_section_title data.title ::
      add_card_with_bullets MG CT card_w card_h data.left.title
        data.left.bullets t.card_bg (some t.primary) ++
      add_card_with_bullets (MG + card_w + GAP) CT card_w card_h
        data.right.title data.right.bullets t.card_alt (some t.secondary) ++
      [add_slide_number 7 TOTAL_SLIDES] }

/-- The per-row height of `slide_7b_grid_table` (line 1489):
`(card_h - 1.00) / max(len(bullets_l), 1)` with `card_h = 5.00` — guarded by
`max`, so it never divides by zero, and it is derived from the LEFT column's
bullet count only. -/
def slide_7b_row_h (bullets_l : List String) : ℚ :=
  (5.00 - 1.00) / (max bullets_l.length 1 : ℚ)

/-- One bullet row of the slide-7B grid (lines 1490–1513 and 1538–1561): a
divider line above every row but the first, then the row's textbox. -/
def slide_7b_row (x0 row_start row_h card_w : ℚ) (j : Nat) (b : String) :
    List Shape :=
  let y : ℚ := row_start + j * row_h
  (if j = 0 then []
   else [⟨.rect, x0 + 0.15, y, card_w - 0.30, Pt 0.75, some CARD_BORDER,
          []⟩]) ++
  [⟨.tbox, x0 + 0.25, y + 0.06, card_w - 0.50, row_h - 0.08, none,
    ["  •  ", b]⟩]

/-- `slide_7b_grid_table` (lines 1457–1562): two tinted cards whose bullets
are laid out as divider-separated rows; both columns use the row height
derived from the left column's bullet count. -/
def slide_7b_grid_table (t : Theme) (data : CompareSlideData) : Slide :=
  let card_w : ℚ := (CW - GAP) / 2
  let card_h : ℚ := 5.00
  let row_start : ℚ := CT + 0.80
  let row_h : ℚ := slide_7b_row_h data.left.bullets
  let rx : ℚ := MG + card_w + GAP
  { bg := t.light_bg,
    shapes :=
      [add_section_title data.title,
       ⟨.rrect, MG, CT, card_w, card_h, some t.card_bg, []⟩,
       ⟨.tbox, MG + 0.25, CT + 0.20, card_w - 0.50, 0.50, none,
        [data.left.title]⟩] ++
      (data.left.bullets.enum.flatMap (fun jb =>
        slide_7b_row MG row_start row_h card_w jb.1 jb.2)) ++
      [⟨.rrect, rx, CT, card_w, card_h, some t.card_alt, []⟩,
       ⟨.tbox, rx + 0.25, CT + 0.20, card_w - 0.50, 0.50, none,
        [data.right.title]⟩] ++
      (data.right.bullets.enum.flatMap (fun jb =>
        slide_7b_row rx row_start row_h card_w jb.1 jb.2)) ++
      [add_slide_number 7 TOTAL_SLIDES] }

/-- `slide_8a_timeline` (lines 1565–1610): connector line plus up to four
numbered columns; the column width is `CW / n`, so no steps raises. -/
def slide_8a_timeline (t : Theme) (data : StepsSlideData) : Option Slide :=
  let steps := data.steps.take 4
  let n := steps.length
  if n = 0 then none else
  let step_w : ℚ := CW / n
  let line_y : ℚ := 2.87
  let colors := [t.primary, t.secondary, t.tertiary, t.primary]
  some
    { bg := t.card_bg,
      shapes :=
        [add_section_title data.title,
         ⟨.rect, MG + 0.40, line_y, CW - 0.80, 0.06, some MEDIUM_GRAY, []⟩] ++
        (steps.enum.flatMap (fun is =>
          let col_left : ℚ := MG + is.1 * step_w
          let cx : ℚ := col_left + step_w / 2 - 0.25
          [add_circle_label cx (line_y - 0.10) 0.50 (pick colors (is.1 % 4))
            (toString (is.1 + 1)),
           ⟨.tbox, col_left, 3.40, step_w, 0.50, none, [is.2.title]⟩,
           add_bullet_text col_left 4.00 step_w 2.80 is.2.bullets])) ++
        [add_slide_number 8 TOTAL_SLIDES] }

/-- `slide_8b_step_cards` (lines 1613–1660): up to four stacked step cards
with numbered circles; the card height divides by the step count. -/
def slide_8b_step_cards (t : Theme) (data : StepsSlideData) : Option Slide :=
  let steps := data.steps.take 4
  let n := steps.length
  if n = 0 then none else
  let card_gap : ℚ := 0.20
  let card_h : ℚ := min ((5.00 - ((n : ℚ) - 1) * card_gap) / n) 1.10
  let colors := [t.primary, t.secondary, t.tertiary, t.primary]
  some
    { bg := t.card_bg,
      shapes :=
        add_section_title data.title ::
        (steps.enum.flatMap (fun is =>
          let y : ℚ := CT + is.1 * (card_h + card_gap)
          let color := pick colors (is.1 % 4)
          add_card (MG + 0.65) y (CW - 0.65) card_h WHITE (some color) ++
            [⟨.tbox, MG + 0.85, y + 0.10, CW - 1.10, 0.35, none,
              [is.2.title]⟩,
             ⟨.tbox, MG + 0.85, y + 0.42, CW - 1.10, card_h - 0.52, none,
              [String.intercalate " · " is.2.bullets]⟩,
             add_circle_label MG (y + card_h / 2 - 0.25) 0.50 color
               (toString (is.1 + 1))])) ++
        [add_slide_number 8 TOTAL_SLIDES] }

/-- `slide_9a_stat_image` (lines 1663–1688): big stat numeral and label,
bullets, square image right; total. -/
def slide_9a_stat_image (t : Theme) (data : StatSlideData)
    (image_bytes : Option Img) : Slide :=
  { bg := t.light_bg,
    shapes :=
      [add_section_title data.title,
       add_square_image image_bytes IMG_RX IMG_TOP,
       ⟨.tbox, MG, CT, TXT_BW, 1.50, none,
        [data.stat_number.getD "", data.stat_label.getD ""]⟩,
       add_bullet_text MG (CT + 2.20) TXT_BW 2.80 data.bullets,
       add_slide_number 9 TOTAL_SLIDES] }

/-- `slide_9b_quote_image` (lines 1691–1718): accent-barred quote built from
the stat fields, bullets, square image right; total. -/
def slide_9b_quote_image (t : Theme) (data : StatSlideData)
    (image_bytes : Option Img) : Slide :=
  let quote := data.stat_number.getD "" ++ " " ++ data.stat_label.getD ""
  { bg := t.light_bg,
    shapes :=
      [add_section_title data.title,
       add_square_image image_bytes IMG_RX IMG_TOP,
       ⟨.rect, MG, CT + 0.10, Pt 5, 1.80, some t.secondary, []⟩,
       ⟨.tbox, MG + 0.30, CT, TXT_BW - 0.30, 2.00, none, [quote]⟩,
       add_bullet_text MG (CT + 2.50) TXT_BW 2.50 data.bullets,
       add_slide_number 9 TOTAL_SLIDES] }

/-- `slide_10_closing_cta` (lines 1721–1752): dark background, centred
title, accent divider, up to three CTA cards of fixed width
`(CW - 2*GAP)/3`; total. -/
def slide_10_closing_cta (t : Theme) (data : CardsSlideData) : Slide :=
  let title_x : ℚ := 2.10
  let title_w : ℚ := SW - 2 * title_x
  let div_w : ℚ := 3.00
  let card_w : ℚ := (CW - 2 * GAP) / 3
  let card_top : ℚ := 2.30
  let card_h : ℚ := 4.50
  { bg := t.dark,
    shapes :=
      [⟨.tbox, title_x, MG, title_w, 1.20, none, [data.title]⟩,
       add_accent_line ((SW - div_w) / 2) 1.85 div_w t.secondary] ++
      ((data.cards.take 3).enum.flatMap (fun ic =>
        let x : ℚ := MG + ic.1 * (card_w + GAP)
        add_card_with_bullets x card_top card_w card_h ic.2.title
          ic.2.bullets t.card_alt (some t.secondary))) ++
      [add_slide_number 10 TOTAL_SLIDES] }

/-! ## Deck assembly (`generate_ppt`, app.py lines 1757–1857)

A valid `ContentDocument` (slides 2..10 all present, as the spec's
normalisation contract guarantees) is a record with one payload per slide.
The JSON `slide_designs` dict has string keys "2".."9"; its lookups are
modelled by the numeric slide index. Image acquisition is external, so the
already-fetched assets enter as a map from slide index. -/

structure Content where
  title : String
  subtitle : String
  theme : Option String
  designs : Nat → Option String
  s2 : CardsSlideData
  s3 : CardsSlideData
  s4 : BulletsSlideData
  s5 : CardsSlideData
  s6 : StatSlideData
  s7 : CompareSlideData
  s8 : StepsSlideData
  s9 : StatSlideData
  s10 : CardsSlideData

/-- `designs.get(str(i), "A") == "B"` (lines 1793, 1798, …). -/
def wantsB (designs : Nat → Option String) (i : Nat) : Bool :=
  (designs i).getD "A" = "B"

/-- Slide-2 dispatch (lines 1793–1796). -/
def pick_slide2 (t : Theme) (c : Content) : Option Slide :=
  if wantsB c.designs 2 then slide_2b_left_accent_cards t c.s2
  else some (slide_2a_dot_badge_rows t c.s2)

/-- Slide-3 dispatch (lines 1798–1801). -/
def pick_slide3 (t : Theme) (c : Content) : Option Slide :=
  if wantsB c.designs 3 then slide_3b_four_cards_row t c.s3
  else slide_3a_three_cards_row t c.s3

/-- Slide-4 dispatch (lines 1803–1806); both variants are total and both
receive `images[4]`. -/
def pick_slide4 (t : Theme) (c : Content) (img : Option Img) : Slide :=
  if wantsB c.designs 4 then slide_4b_bullets_image_right t c.s4 img
  else slide_4a_image_left_bullets t c.s4 img

/-- Slide-5 dispatch (lines 1808–1811). -/
def pick_slide5 (t : Theme) (c : Content) : Option Slide :=
  if wantsB c.designs 5 then slide_5b_stat_columns t c.s5
  else some (slide_5a_grid_badges t c.s5)

/-- Slide-6 dispatch (lines 1813–1816); both variants receive `images[6]`. -/
def pick_slide6 (t : Theme) (c : Content) (img : Option Img) : Option Slide :=
  if wantsB c.designs 6 then slide_6b_cards_banner t c.s6 img
  else some (slide_6a_bullets_banner t c.s6 img)

/-- Slide-7 dispatch (lines 1818–1821); both variants are total. -/
def pick_slide7 (t : Theme) (c : Content) : Slide :=
  if wantsB c.designs 7 then slide_7b_grid_table t c.s7
  else slide_7a_two_cards t c.s7

/-- Slide-8 dispatch (lines 1823–1826). -/
def pick_slide8 (t : Theme) (c : Content) : Option Slide :=
  if wantsB c.designs 8 then slide_8b_step_cards t c.s8
  else slide_8a_timeline t c.s8

/-- Slide-9 dispatch (lines 1828–1831); both variants are total and both
receive `images[9]`. -/
def pick_slide9 (t : Theme) (c : Content) (img : Option Img) : Slide :=
  if wantsB c.designs 9 then slide_9b_quote_image t c.s9 img
  else slide_9a_stat_image t c.s9 img

/-- The deck-building portion of `generate_ppt` (lines 1772–1833): resolve
the theme, build slide 1 with `images[1]`, dispatch slides 2..9 on the
design map, build slide 10 unconditionally; `none` when a builder raises. -/
def generate_ppt_assemble (c : Content) (images : Nat → Option Img) :
    Option (List Slide) := do
  let t := apply_theme (c.theme.getD "indigo")
  let s1 := slide_1_hero_title t c.title c.subtitle (images 1)
  let s2 ← pick_slide2 t c
  let s3 ← pick_slide3 t c
  let s4 := pick_slide4 t c (images 4)
  let s5 ← pick_slide5 t c
  let s6 ← pick_slide6 t c (images 6)
  let s7 := pick_slide7 t c
  let s8 ← pick_slide8 t c
  let s9 := pick_slide9 t c (images 9)
  let s10 := slide_10_closing_cta t c.s10
  some [s1, s2, s3, s4, s5, s6, s7, s8, s9, s10]

/-! ### The dispatch skeleton of `generate_ppt`

A coarser view of the same lines 1791–1833, recording for each slide which
builder is invoked and which image argument (if any) is passed to it. -/

inductive Variant where
  | A
  | B
deriving DecidableEq, Repr

/-- One builder invocation: the slide index it renders, the selected variant
(`none` for slides 1 and 10, which have a single layout), and the image
argument (`none` when the builder's signature takes no image). -/
structure BuilderCall where
  index : Nat
  variant : Option Variant
  imageArg : Option (Option Img)
deriving DecidableEq, Repr

/-- The A/B choice for slide `i`: variant B exactly when
`designs.get(str(i), "A") == "B"`. -/
def chooseVariant (designs : Nat → Option String) (i : Nat) : Variant :=
  if wantsB designs i then .B else .A

/-- The sequence of builder invocations made by `generate_ppt`
(lines 1791–1833), in program order. -/
def generate_ppt_dispatch (designs : Nat → Option String)
    (images : Nat → Option Img) : List BuilderCall :=
  [⟨1, none, some (images 1)⟩,
   ⟨2, some (chooseVariant designs 2), none⟩,
   ⟨3, some (chooseVariant designs 3), none⟩,
   ⟨4, some (chooseVariant designs 4), some (images 4)⟩,
   ⟨5, some (chooseVariant designs 5), none⟩,
   ⟨6, some (chooseVariant designs 6), some (images 6)⟩,
   ⟨7, some (chooseVariant designs 7), none⟩,
   ⟨8, some (chooseVariant designs 8), none⟩,
   ⟨9, some (chooseVariant designs 9), some (images 9)⟩,
   ⟨10, none, none⟩]

/-! ### History persistence and the response (lines 1839–1857) -/

/-- The tail of `generate_ppt`: the deck bytes are already built; the
history INSERT runs inside `try: ... except Exception: pass`, so any
persistence error is swallowed and the same bytes are sent either way.
The abstract `save` performs the INSERT on the history store and either
returns the new store or fails. -/
def generate_ppt_save_and_send {Store Bytes : Type}
    (store : Store) (save : Store → Bytes → Except String Store)
    (file_bytes : Bytes) : Store × Bytes :=
  match save store file_bytes with
  | .ok store2 => (store2, file_bytes)
  | .error _ => (store, file_bytes)

/-- The whole route after content generation: assemble the deck, attempt the
history save, send the artifact; `none` only when assembly itself fails. -/
def generate_ppt_route {Store : Type} (c : Content)
    (images : Nat → Option Img) (store : Store)
    (save : Store → List Slide → Except String Store) :
    Option (List Slide) :=
  (generate_ppt_assemble c images).map
    (fun deck => (generate_ppt_save_and_send store save deck).2)

/-! ## Theorems -/

/-- C5: Theme resolution is a pure deterministic mapping: it always yields a
7-colour palette (never fails), and any name outside the THEMES table —
including the empty name — resolves to exactly the palette of "indigo". -/
theorem theme_resolution_total_and_defaults (name : String) :
    (∃ t : Theme, apply_theme name = t) ∧
    (THEMES name = none → apply_theme name = apply_theme "indigo") ∧
    apply_theme "" = apply_theme "indigo" := by
  refine ⟨⟨apply_theme name, rfl⟩, fun h => ?_, by decide⟩
  unfold apply_theme
  rw [h]
  rfl

/-- Witness for C5 at the concrete unknown name "nonexistent". -/
theorem theme_resolution_total_and_defaults_witness :
    apply_theme "nonexistent" = apply_theme "indigo" :=
  (theme_resolution_total_and_defaults "nonexistent").2.1 (by decide)

/-- C7: drawing with an absent image blob renders, instead of failing, a
single non-picture placeholder of exactly the requested position and size
carrying the visible "IMAGE" marker; the full-bleed side image follows the
same rule anchored at `x = 0` (left) or `x = SW - width` (otherwise). -/
theorem absent_image_renders_placeholder (x y sz w h : ℚ) (side : String) :
    (∃ s : Shape, add_square_image none x y sz = s ∧ s.x = x ∧ s.y = y ∧
      s.w = sz ∧ s.h = sz ∧ "IMAGE" ∈ s.runs ∧ s.kind ≠ .pic) ∧
    (∃ s : Shape, add_side_image none side w h = s ∧
      s.x = (if side = "left" then 0 else SW - w) ∧ s.y = 0 ∧ s.w = w ∧
      s.h = h ∧ "IMAGE" ∈ s.runs ∧ s.kind ≠ .pic) := by
  constructor
  · exact ⟨_, rfl, rfl, rfl, rfl, rfl, by simp [add_square_image], by
      simp [add_square_image]⟩
  · refine ⟨_, rfl, ?_, rfl, rfl, rfl, by simp [add_side_image], by
      simp [add_side_image]⟩
    simp [add_side_image]

/-- C8: a history-save failure is swallowed: whatever the persistence
function does, the route's response is exactly the assembled artifact, and
the bytes handed back by the save-and-send step are the built bytes. -/
theorem history_save_failure_never_alters_download {Store : Type}
    (c : Content) (images : Nat → Option Img) (store : Store)
    (save : Store → List Slide → Except String Store) :
    generate_ppt_route c images store save =
      generate_ppt_assemble c images ∧
    ∀ (b : List Slide), (generate_ppt_save_and_send store save b).2 = b := by
  have key : ∀ (b : List Slide),
      (generate_ppt_save_and_send store save b).2 = b := by
    intro b
    unfold generate_ppt_save_and_send
    cases save store b <;> rfl
  refine ⟨?_, key⟩
  unfold generate_ppt_route
  cases h : generate_ppt_assemble c images <;> simp [key]

/-- C2: the row/grid builders do NOT skip when the item list is empty — the
pre-loop geometry division raises (modelled as `none`) for slide 3A with no
cards and slide 8A with no steps; for counts 1 up to the documented maximum
the same builders succeed with every shape's width and height nonnegative. -/
theorem empty_item_list_divides_by_zero :
    slide_3a_three_cards_row (apply_theme "indigo") ⟨"Key Points", []⟩ =
      none ∧
    slide_8a_timeline (apply_theme "indigo") ⟨"Process", []⟩ = none ∧
    (Option.all (fun s => s.shapes.all fun sh =>
        decide (0 ≤ sh.w) && decide (0 ≤ sh.h))
      (slide_3a_three_cards_row (apply_theme "indigo")
        ⟨"Key Points", [⟨"One", ["a"]⟩]⟩) = true) ∧
    (Option.all (fun s => s.shapes.all fun sh =>
        decide (0 ≤ sh.w) && decide (0 ≤ sh.h))
      (slide_3a_three_cards_row (apply_theme "indigo")
        ⟨"Key Points", [⟨"One", ["a"]⟩, ⟨"Two", ["b"]⟩, ⟨"Three", ["c"]⟩]⟩) =
      true) ∧
    (Option.all (fun s => s.shapes.all fun sh =>
        decide (0 ≤ sh.w) && decide (0 ≤ sh.h))
      (slide_8a_timeline (apply_theme "indigo")
        ⟨"Process", [⟨"S1", ["a"]⟩]⟩) = true) ∧
    (Option.all (fun s => s.shapes.all fun sh =>
        decide (0 ≤ sh.w) && decide (0 ≤ sh.h))
      (slide_8a_timeline (apply_theme "indigo")
        ⟨"Process", [⟨"S1", ["a"]⟩, ⟨"S2", ["b"]⟩, ⟨"S3", ["c"]⟩,
          ⟨"S4", ["d"]⟩]⟩) = true) := by
  refine ⟨rfl, rfl, ?_, ?_, ?_, ?_⟩ <;>
  · simp only [slide_3a_three_cards_row, slide_8a_timeline,
      add_card_with_bullets, add_card, add_bullet_text, add_section_title,
      add_slide_number, add_circle_label, pick, List.take, List.length,
      List.enum, List.enumFrom, List.map, List.flatMap, List.flatten,
      List.append_eq, List.cons_append, List.nil_append, List.all,
      List.getD, List.get?, Option.getD, Option.all, Bool.and_eq_true,
      decide_eq_true_eq]
    norm_num [min_def, CW, SW, SH, MG, CT, GAP, IMG_SZ, TOTAL_SLIDES]

/-- `wantsB` holds exactly when the design entry is literally "B". -/
theorem wantsB_iff (designs : Nat → Option String) (i : Nat) :
    wantsB designs i = true ↔ designs i = some "B" := by
  unfold wantsB
  cases h : designs i <;> simp

/-- C6: for every slide index 2..9 the assembler's dispatch selects the
variant-B builder exactly when the design entry equals "B" (absent or any
other value selects variant A), threads `images[i]` only into the builders
for slides 4, 6, 9 (and `images[1]` into the title builder), and always
ends with the single slide-10 layout. -/
theorem dispatch_defaults_to_A_and_threads_images
    (designs : Nat → Option String) (images : Nat → Option Img) :
    (∀ i, 2 ≤ i → i ≤ 9 →
      ∃ call : BuilderCall,
        (generate_ppt_dispatch designs images).get? (i - 1) = some call ∧
        call.index = i ∧
        (call.variant = some .B ↔ designs i = some "B") ∧
        (call.variant = some .A ↔ ¬designs i = some "B") ∧
        call.imageArg =
          (if i = 4 ∨ i = 6 ∨ i = 9 then some (images i) else none)) ∧
    (generate_ppt_dispatch designs images).get? 0 =
      some ⟨1, none, some (images 1)⟩ ∧
    (generate_ppt_dispatch designs images).get? 9 =
      some ⟨10, none, none⟩ ∧
    (generate_ppt_dispatch designs images).length = 10 := by
  refine ⟨fun i h2 h9 => ?_, rfl, rfl, rfl⟩
  have variantSpec : ∀ j, (chooseVariant designs j = .B ↔
      designs j = some "B") ∧ (chooseVariant designs j = .A ↔
      ¬designs j = some "B") := by
    intro j
    unfold chooseVariant
    by_cases h : wantsB designs j = true
    · simp [h, (wantsB_iff designs j).mp h]
    · have hne : ¬designs j = some "B" := fun hc =>
        h ((wantsB_iff designs j).mpr hc)
      simp [Bool.not_eq_true] at h
      simp [h, hne]
  interval_cases i <;>
    exact ⟨_, rfl, rfl, by simpa using (variantSpec _).1, by
      simpa using (variantSpec _).2, by simp⟩

/-- A concrete design map: slide 4 set to "B", slide 5 set to an
unrecognised value, everything else absent. -/
def sampleDesigns : Nat → Option String :=
  fun i => if i = 4 then some "B" else if i = 5 then some "Z" else none

/-- A concrete image map: images fetched for slides 1 and 6 only. -/
def sampleImages : Nat → Option Img :=
  fun i => if i = 1 then some 11 else if i = 6 then some 12 else none

/-- Witness for C6 at slide 4 of the concrete design/image maps. -/
theorem dispatch_defaults_to_A_and_threads_images_witness :
    ∃ call : BuilderCall,
      (generate_ppt_dispatch sampleDesigns sampleImages).get? (4 - 1) =
        some call ∧
      call.index = 4 ∧
      (call.variant = some .B ↔ sampleDesigns 4 = some "B") ∧
      (call.variant = some .A ↔ ¬sampleDesigns 4 = some "B") ∧
      call.imageArg =
        (if 4 = 4 ∨ 4 = 6 ∨ 4 = 9 then some (sampleImages 4) else none) :=
  (dispatch_defaults_to_A_and_threads_images sampleDesigns sampleImages).1
    4 (by decide) (by decide)

/-! ### Character-class facts for `safe_filename` -/

theorem pyIsSpace_cases {c : Char} (h : pyIsSpace c = true) :
    c = ' ' ∨ c = '\t' ∨ c = '\n' ∨ c = '\r' ∨ c = '\x0b' ∨ c = '\x0c' := by
  have h2 := h
  simp only [pyIsSpace, Bool.or_eq_true, decide_eq_true_eq] at h2
  tauto

theorem word_or_hyphen_not_space {c : Char}
    (h : pyIsWord c = true ∨ c = '-') : pyIsSpace c = false := by
  by_contra hs
  rw [Bool.not_eq_false] at hs
  rcases pyIsSpace_cases hs with rfl | rfl | rfl | rfl | rfl | rfl <;>
    rcases h with h | h <;> exact absurd h (by decide)

theorem word_or_hyphen_not_newline {c : Char}
    (h : pyIsWord c = true ∨ c = '-') : ¬(c = '\n' ∨ c = '\r') := by
  rintro (rfl | rfl) <;> rcases h with h | h <;> exact absurd h (by decide)

/-- Every character of `collapseWsAux b l` is either the inserted underscore
or a non-whitespace character of `l`. -/
theorem collapseWsAux_sound {l : List Char} :
    ∀ {b : Bool} {c : Char}, c ∈ collapseWsAux b l →
      c = '_' ∨ (c ∈ l ∧ pyIsSpace c = false) := by
  induction l with
  | nil => intro b c h; simp [collapseWsAux] at h
  | cons a as ih =>
    intro b c h
    unfold collapseWsAux at h
    by_cases ha : pyIsSpace a = true
    · rw [if_pos ha] at h
      cases b with
      | true =>
        rcases ih h with h1 | ⟨h1, h2⟩
        · exact .inl h1
        · exact .inr ⟨List.mem_cons_of_mem a h1, h2⟩
      | false =>
        rcases List.mem_cons.mp h with rfl | h2
        · exact .inl rfl
        · rcases ih h2 with h1 | ⟨h1, h3⟩
          · exact .inl h1
          · exact .inr ⟨List.mem_cons_of_mem a h1, h3⟩
    · rw [if_neg ha] at h
      rcases List.mem_cons.mp h with rfl | h2
      · exact .inr ⟨List.mem_cons_self c as, Bool.not_eq_true _ ▸ ha⟩
      · rcases ih h2 with h1 | ⟨h1, h3⟩
        · exact .inl h1
        · exact .inr ⟨List.mem_cons_of_mem a h1, h3⟩

/-- On whitespace-free input the collapse pass is the identity. -/
theorem collapseWsAux_no_space {l : List Char}
    (h : ∀ c ∈ l, pyIsSpace c = false) : ∀ b, collapseWsAux b l = l := by
  induction l with
  | nil => intro b; rfl
  | cons a as ih =>
    intro b
    unfold collapseWsAux
    rw [if_neg (by simp [h a (List.mem_cons_self a as)])]
    exact congrArg (a :: ·)
      (ih (fun c hc => h c (List.mem_cons_of_mem a hc)) false)

theorem list_map_id {α : Type} {f : α → α} :
    ∀ {l : List α}, (∀ a ∈ l, f a = a) → l.map f = l := by
  intro l
  induction l with
  | nil => intro _; rfl
  | cons a as ih =>
    intro h
    rw [List.map_cons, h a (List.mem_cons_self a as),
      ih fun c hc => h c (List.mem_cons_of_mem a hc)]

/-- Every character surviving `safe_filename` is a word character or `-`. -/
theorem safe_filename_chars {x : List Char} :
    ∀ c ∈ safe_filename x, pyIsWord c = true ∨ c = '-' := by
  intro c hc
  simp only [safe_filename] at hc
  split_ifs at hc with he
  · exact .inl ((by decide : ∀ c ∈ "presentation".toList,
      pyIsWord c = true) c hc)
  · have h3 := List.take_subset 50 _ hc
    rcases collapseWsAux_sound h3 with rfl | ⟨h1, h2⟩
    · exact .inl (by decide)
    · have hp := (List.mem_filter.mp h1).2
      rw [h2] at hp
      simpa using hp

theorem safe_filename_length_le {x : List Char} :
    (safe_filename x).length ≤ 50 := by
  simp only [safe_filename]
  split_ifs
  · decide
  · exact List.length_take_le 50 _

theorem safe_filename_ne_nil {x : List Char} : safe_filename x ≠ [] := by
  simp only [safe_filename]
  split_ifs with he
  · decide
  · simpa using he

/-- C4: filename sanitisation is idempotent, maps the empty input to
"presentation", never exceeds 50 characters, and emits only word
characters and hyphens. -/
theorem safe_filename_idempotent_and_bounded (x : List Char) :
    safe_filename (safe_filename x) = safe_filename x ∧
    safe_filename [] = "presentation".toList ∧
    (safe_filename x).length ≤ 50 ∧
    ∀ c ∈ safe_filename x, pyIsWord c = true ∨ c = '-' := by
  refine ⟨?_, rfl, safe_filename_length_le, safe_filename_chars⟩
  have hchars := safe_filename_chars (x := x)
  conv_lhs => rw [safe_filename]
  rw [list_map_id fun c hc =>
    if_neg (word_or_hyphen_not_newline (hchars c hc))]
  rw [List.filter_eq_self.mpr fun c hc => by
    rcases hchars c hc with h | h <;> simp [h]]
  rw [show collapseWs (safe_filename x) = safe_filename x from
    collapseWsAux_no_space
      (fun c hc => word_or_hyphen_not_space (hchars c hc)) false]
  rw [List.take_of_length_le safe_filename_length_le]
  rw [if_neg (by simpa using safe_filename_ne_nil (x := x))]

/-- Witness for C4: the character-class clause applied at a concrete input
(`safe_filename "a b!" = "a_b"`). -/
theorem safe_filename_idempotent_and_bounded_witness :
    pyIsWord 'a' = true ∨ 'a' = '-' :=
  (safe_filename_idempotent_and_bounded "a b!".toList).2.2.2 'a' (by decide)

/-! ### Page indicators (claim C9 and the ordering part of C1) -/

/-- The slide carries the bottom-right page-indicator textbox for page `i`
of `TOTAL_SLIDES`. -/
def hasPageIndicator (i : Nat) (s : Slide) : Bool :=
  decide (add_slide_number i TOTAL_SLIDES ∈ s.shapes)

theorem page_slide_1 (t : Theme) (ti su : String) (img : Option Img) :
    hasPageIndicator 1 (slide_1_hero_title t ti su img) = true := by
  simp [hasPageIndicator, slide_1_hero_title]

theorem page_slide_2a (t : Theme) (d : CardsSlideData) :
    hasPageIndicator 2 (slide_2a_dot_badge_rows t d) = true := by
  simp [hasPageIndicator, slide_2a_dot_badge_rows]

theorem allPage_slide_2b (t : Theme) (d : CardsSlideData) :
    Option.all (hasPageIndicator 2) (slide_2b_left_accent_cards t d) =
      true := by
  simp only [slide_2b_left_accent_cards]
  split
  · rfl
  · simp [Option.all, hasPageIndicator]

theorem allPage_slide_3a (t : Theme) (d : CardsSlideData) :
    Option.all (hasPageIndicator 3) (slide_3a_three_cards_row t d) =
      true := by
  simp only [slide_3a_three_cards_row]
  split
  · rfl
  · simp [Option.all, hasPageIndicator]

theorem allPage_slide_3b (t : Theme) (d : CardsSlideData) :
    Option.all (hasPageIndicator 3) (slide_3b_four_cards_row t d) =
      true := by
  simp only [slide_3b_four_cards_row]
  split
  · rfl
  · simp [Option.all, hasPageIndicator]

theorem page_slide_4a (t : Theme) (d : BulletsSlideData) (img : Option Img) :
    hasPageIndicator 4 (slide_4a_image_left_bullets t d img) = true := by
  simp [hasPageIndicator, slide_4a_image_left_bullets]

theorem page_slide_4b (t : Theme) (d : BulletsSlideData) (img : Option Img) :
    hasPageIndicator 4 (slide_4b_bullets_image_right t d img) = true := by
  simp [hasPageIndicator, slide_4b_bullets_image_right]

theorem page_slide_5a (t : Theme) (d : CardsSlideData) :
    hasPageIndicator 5 (slide_5a_grid_badges t d) = true := by
  simp [hasPageIndicator, slide_5a_grid_badges]

theorem allPage_slide_5b (t : Theme) (d : CardsSlideData) :
    Option.all (hasPageIndicator 5) (slide_5b_stat_columns t d) = true := by
  simp only [slide_5b_stat_columns]
  split
  · rfl
  · simp [Option.all, hasPageIndicator]

theorem page_slide_6a (t : Theme) (d : StatSlideData) (img : Option Img) :
    hasPageIndicator 6 (slide_6a_bullets_banner t d img) = true := by
  simp [hasPageIndicator, slide_6a_bullets_banner]

theorem allPage_slide_6b (t : Theme) (d : StatSlideData) (img : Option Img) :
    Option.all (hasPageIndicator 6) (slide_6b_cards_banner t d img) =
      true := by
  simp only [slide_6b_cards_banner]
  split
  · rfl
  · simp [Option.all, hasPageIndicator]

theorem page_slide_7a (t : Theme) (d : CompareSlideData) :
    hasPageIndicator 7 (slide_7a_two_cards t d) = true := by
  simp [hasPageIndicator, slide_7a_two_cards]

theorem page_slide_7b (t : Theme) (d : CompareSlideData) :
    hasPageIndicator 7 (slide_7b_grid_table t d) = true := by
  simp [hasPageIndicator, slide_7b_grid_table]

theorem allPage_slide_8a (t : Theme) (d : StepsSlideData) :
    Option.all (hasPageIndicator 8) (slide_8a_timeline t d) = true := by
  simp only [slide_8a_timeline]
  split
  · rfl
  · simp [Option.all, hasPageIndicator]

theorem allPage_slide_8b (t : Theme) (d : StepsSlideData) :
    Option.all (hasPageIndicator 8) (slide_8b_step_cards t d) = true := by
  simp only [slide_8b_step_cards]
  split
  · rfl
  · simp [Option.all, hasPageIndicator]

theorem page_slide_9a (t : Theme) (d : StatSlideData) (img : Option Img) :
    hasPageIndicator 9 (slide_9a_stat_image t d img) = true := by
  simp [hasPageIndicator, slide_9a_stat_image]

theorem page_slide_9b (t : Theme) (d : StatSlideData) (img : Option Img) :
    hasPageIndicator 9 (slide_9b_quote_image t d img) = true := by
  simp [hasPageIndicator, slide_9b_quote_image]

theorem page_slide_10 (t : Theme) (d : CardsSlideData) :
    hasPageIndicator 10 (slide_10_closing_cta t d) = true := by
  simp [hasPageIndicator, slide_10_closing_cta]

/-- C9: every slide built by any of the template builders — all ten kinds,
both variants — carries the bottom-right page indicator whose text is
exactly `"{index} / {total}"` with total = 10 (builders that can raise on
empty item lists carry it on every slide they do build). -/
theorem every_slide_carries_page_indicator (t : Theme) (ti su : String)
    (img : Option Img) (dc : CardsSlideData) (db : BulletsSlideData)
    (ds : StatSlideData) (dcmp : CompareSlideData) (dst : StepsSlideData) :
    (∀ i : Nat, (add_slide_number i TOTAL_SLIDES).runs =
      [toString i ++ " / " ++ toString TOTAL_SLIDES]) ∧
    toString TOTAL_SLIDES = "10" ∧
    hasPageIndicator 1 (slide_1_hero_title t ti su img) = true ∧
    hasPageIndicator 2 (slide_2a_dot_badge_rows t dc) = true ∧
    Option.all (hasPageIndicator 2) (slide_2b_left_accent_cards t dc) =
      true ∧
    Option.all (hasPageIndicator 3) (slide_3a_three_cards_row t dc) =
      true ∧
    Option.all (hasPageIndicator 3) (slide_3b_four_cards_row t dc) = true ∧
    hasPageIndicator 4 (slide_4a_image_left_bullets t db img) = true ∧
    hasPageIndicator 4 (slide_4b_bullets_image_right t db img) = true ∧
    hasPageIndicator 5 (slide_5a_grid_badges t dc) = true ∧
    Option.all (hasPageIndicator 5) (slide_5b_stat_columns t dc) = true ∧
    hasPageIndicator 6 (slide_6a_bullets_banner t ds img) = true ∧
    Option.all (hasPageIndicator 6) (slide_6b_cards_banner t ds img) =
      true ∧
    hasPageIndicator 7 (slide_7a_two_cards t dcmp) = true ∧
    hasPageIndicator 7 (slide_7b_grid_table t dcmp) = true ∧
    Option.all (hasPageIndicator 8) (slide_8a_timeline t dst) = true ∧
    Option.all (hasPageIndicator 8) (slide_8b_step_cards t dst) = true ∧
    hasPageIndicator 9 (slide_9a_stat_image t ds img) = true ∧
    hasPageIndicator 9 (slide_9b_quote_image t ds img) = true ∧
    hasPageIndicator 10 (slide_10_closing_cta t dc) = true :=
  ⟨fun _ => rfl, by decide, page_slide_1 t ti su img, page_slide_2a t dc,
   allPage_slide_2b t dc, allPage_slide_3a t dc, allPage_slide_3b t dc,
   page_slide_4a t db img, page_slide_4b t db img, page_slide_5a t dc,
   allPage_slide_5b t dc, page_slide_6a t ds img, allPage_slide_6b t ds img,
   page_slide_7a t dcmp, page_slide_7b t dcmp, allPage_slide_8a t dst,
   allPage_slide_8b t dst, page_slide_9a t ds img, page_slide_9b t ds img,
   page_slide_10 t dc⟩

/-- C10: in the slide-7B grid builder the per-row height is
`(card_h - 1.00) / max(len(leftBullets), 1)` — a positive denominator even
for an empty left column — and the `j`-th RIGHT-column row is laid out with
that left-derived row height, whatever the right column's own length. -/
theorem slide_7b_right_rows_reuse_left_row_height (t : Theme)
    (d : CompareSlideData) (j : Nat) (b : String)
    (hj : d.right.bullets[j]? = some b) :
    slide_7b_row_h d.left.bullets =
      (5.00 - 1.00) / (max d.left.bullets.length 1 : ℚ) ∧
    (0 : ℚ) < (max d.left.bullets.length 1 : ℚ) ∧
    (⟨.tbox, MG + (CW - GAP) / 2 + GAP + 0.25,
      CT + 0.80 + j * slide_7b_row_h d.left.bullets + 0.06,
      (CW - GAP) / 2 - 0.50, slide_7b_row_h d.left.bullets - 0.08, none,
      ["  •  ", b]⟩ : Shape) ∈ (slide_7b_grid_table t d).shapes := by
  refine ⟨rfl, ?_, ?_⟩
  · exact_mod_cast lt_of_lt_of_le one_pos
      (le_max_right d.left.bullets.length 1)
  have hmem : (⟨.tbox, MG + (CW - GAP) / 2 + GAP + 0.25,
      CT + 0.80 + j * slide_7b_row_h d.left.bullets + 0.06,
      (CW - GAP) / 2 - 0.50, slide_7b_row_h d.left.bullets - 0.08, none,
      ["  •  ", b]⟩ : Shape) ∈
      d.right.bullets.enum.flatMap (fun jb =>
        slide_7b_row (MG + (CW - GAP) / 2 + GAP) (CT + 0.80)
          (slide_7b_row_h d.left.bullets) ((CW - GAP) / 2) jb.1 jb.2) := by
    refine List.mem_flatMap.mpr ⟨(j, b), ?_, ?_⟩
    · exact List.mk_mem_enum_iff_getElem?.mpr hj
    · simp [slide_7b_row]
  simp only [slide_7b_grid_table]
  exact List.mem_append_left _ (List.mem_append_right _ hmem)

/-- A concrete comparison payload: one left bullet, two right bullets. -/
def sampleCompare : CompareSlideData :=
  ⟨"Compare", ⟨"Left", ["a"]⟩, ⟨"Right", ["x", "y"]⟩⟩

/-- Witness for C10 at the second right-column bullet of `sampleCompare`. -/
theorem slide_7b_right_rows_reuse_left_row_height_witness :
    slide_7b_row_h sampleCompare.left.bullets =
      (5.00 - 1.00) / (max sampleCompare.left.bullets.length 1 : ℚ) ∧
    (0 : ℚ) < (max sampleCompare.left.bullets.length 1 : ℚ) ∧
    (⟨.tbox, MG + (CW - GAP) / 2 + GAP + 0.25,
      CT + 0.80 + (1 : Nat) * slide_7b_row_h sampleCompare.left.bullets +
        0.06,
      (CW - GAP) / 2 - 0.50,
      slide_7b_row_h sampleCompare.left.bullets - 0.08, none,
      ["  •  ", "y"]⟩ : Shape) ∈
      (slide_7b_grid_table indigoTheme sampleCompare).shapes :=
  slide_7b_right_rows_reuse_left_row_height indigoTheme sampleCompare 1 "y"
    rfl

/-! ### Row packing widths (claim C3) -/

/-- The claimed actual-count row width `(CW - (n-1)*GAP) / n` for `n` items
delivered under a cap (the builders slice with `[:cap]` first). -/
def row_card_width (cap count : Nat) : ℚ :=
  (CW - ((min cap count : ℚ) - 1) * GAP) / (min cap count : ℚ)

/-- A concrete closing-slide payload with only two cards. -/
def sampleClosingTwoCards : CardsSlideData :=
  ⟨"Next Steps", [⟨"Act", ["x"]⟩, ⟨"Share", ["y"]⟩]⟩

/-- Counterexample to C3: with two cards delivered to the closing slide, no
card has the actual-count width `(CW - (2-1)*GAP) / 2`; each card keeps the
nominal width `(CW - 2*GAP) / 3`. -/
theorem closing_cta_ignores_actual_count :
    (((slide_10_closing_cta indigoTheme sampleClosingTwoCards).shapes.filter
        fun sh => decide (sh.kind = ShapeKind.rrect)).all
      (fun sh => decide (sh.w = (CW - (2 - 1) * GAP) / 2)) = false) ∧
    (((slide_10_closing_cta indigoTheme sampleClosingTwoCards).shapes.filter
        fun sh => decide (sh.kind = ShapeKind.rrect)).all
      (fun sh => decide (sh.w = (CW - 2 * GAP) / 3)) = true) := by
  constructor <;>
  · simp [slide_10_closing_cta, sampleClosingTwoCards, add_card_with_bullets,
      add_card, add_bullet_text, add_accent_line, add_slide_number,
      add_section_title, List.take, List.enum, List.enumFrom, List.filter]
    try norm_num [CW, SW, MG, GAP]

theorem widths_slide_3a (t : Theme) (d : CardsSlideData) :
    ∀ s, slide_3a_three_cards_row t d = some s →
      ∀ sh ∈ s.shapes, sh.kind = ShapeKind.rrect →
        sh.w = row_card_width 3 d.cards.length := by
  intro s hs sh hmem hk
  simp only [slide_3a_three_cards_row] at hs
  split at hs
  · exact absurd hs (by simp)
  · obtain rfl : _ = s := Option.some.inj hs
    simp only [List.mem_cons, List.mem_append, List.mem_flatMap,
      add_card_with_bullets, add_card, add_bullet_text, add_section_title,
      add_slide_number, List.cons_append, List.nil_append,
      List.mem_singleton, List.not_mem_nil, or_false] at hmem
    rcases hmem with rfl | ⟨⟨⟨i, c⟩, hin, hsh⟩ | rfl⟩
    · exact absurd hk (by simp)
    · rcases hsh with rfl | rfl | rfl | rfl
      · simp only [row_card_width, List.length_take, Nat.cast_min]
      · exact absurd hk (by simp)
      · exact absurd hk (by simp)
      · exact absurd hk (by simp)
    · exact absurd hk (by simp)

theorem widths_slide_3b (t : Theme) (d : CardsSlideData) :
    ∀ s, slide_3b_four_cards_row t d = some s →
      ∀ sh ∈ s.shapes, sh.kind = ShapeKind.rrect →
        sh.w = row_card_width 4 d.cards.length := by
  intro s hs sh hmem hk
  simp only [slide_3b_four_cards_row] at hs
  split at hs
  · exact absurd hs (by simp)
  · obtain rfl : _ = s := Option.some.inj hs
    simp only [List.mem_cons, List.mem_append, List.mem_flatMap,
      add_card_with_bullets, add_card, add_bullet_text, add_section_title,
      add_slide_number, List.cons_append, List.nil_append,
      List.mem_singleton, List.not_mem_nil, or_false] at hmem
    have hmm : min (List.take 4 d.cards).length 4 = min 4 d.cards.length := by
      rw [List.length_take]
      exact Nat.min_eq_left (Nat.min_le_left _ _)
    rcases hmem with rfl | ⟨⟨⟨i, c⟩, hin, hsh⟩ | rfl⟩
    · exact absurd hk (by simp)
    · rcases hsh with rfl | rfl | rfl | rfl
      · simp only [row_card_width, hmm, Nat.cast_min]
      · exact absurd hk (by simp)
      · exact absurd hk (by simp)
      · exact absurd hk (by simp)
    · exact absurd hk (by simp)

theorem widths_slide_5b (t : Theme) (d : CardsSlideData) :
    ∀ s, slide_5b_stat_columns t d = some s →
      ∀ sh ∈ s.shapes, sh.kind = ShapeKind.rrect →
        sh.w = row_card_width 4 d.cards.length := by
  intro s hs sh hmem hk
  simp only [slide_5b_stat_columns] at hs
  split at hs
  · exact absurd hs (by simp)
  · obtain rfl : _ = s := Option.some.inj hs
    simp only [List.mem_cons, List.mem_append, List.mem_flatMap,
      add_card, add_bullet_text, add_section_title, add_accent_line,
      add_slide_number, List.cons_append, List.nil_append,
      List.mem_singleton, List.not_mem_nil, or_false] at hmem
    rcases hmem with rfl | ⟨⟨⟨i, c⟩, hin, hsh⟩ | rfl⟩
    · exact absurd hk (by simp)
    · rcases hsh with rfl | rfl | rfl | rfl | rfl
      · simp only [row_card_width, List.length_take, Nat.cast_min]
      · exact absurd hk (by simp)
      · exact absurd hk (by simp)
      · exact absurd hk (by simp)
      · exact absurd hk (by simp)
    · exact absurd hk (by simp)

theorem widths_slide_10 (t : Theme) (d : CardsSlideData) :
    ∀ sh ∈ (slide_10_closing_cta t d).shapes,
      sh.kind = ShapeKind.rrect → sh.w = (CW - 2 * GAP) / 3 := by
  intro sh hmem hk
  simp only [slide_10_closing_cta, List.mem_cons, List.mem_append,
    List.mem_flatMap, add_card_with_bullets, add_card, add_bullet_text,
    add_accent_line, add_slide_number, List.cons_append, List.nil_append,
    List.mem_singleton, List.not_mem_nil, or_false] at hmem
  rcases hmem with rfl | rfl | ⟨⟨i, c⟩, hin, hsh⟩ | rfl
  · exact absurd hk (by simp)
  · exact absurd hk (by simp)
  · rcases hsh with rfl | rfl | rfl | rfl
    · rfl
    · exact absurd hk (by simp)
    · exact absurd hk (by simp)
    · exact absurd hk (by simp)
  · exact absurd hk (by simp)

/-- C3 (amended): the variable-count horizontal-row templates — slides 3A,
3B and 5B — give every card the actual-count width
`(CW - (n-1)*GAP) / n` where `n` is the delivered count capped at the
nominal maximum, so fewer delivered cards widen proportionally; the closing
slide 10, however, keeps the fixed nominal width `(CW - 2*GAP) / 3` however
many cards are delivered. -/
theorem row_builders_use_actual_count (t : Theme)
    (d3 d3b d5 d10 : CardsSlideData) :
    (∀ s, slide_3a_three_cards_row t d3 = some s →
      ∀ sh ∈ s.shapes, sh.kind = ShapeKind.rrect →
        sh.w = row_card_width 3 d3.cards.length) ∧
    (∀ s, slide_3b_four_cards_row t d3b = some s →
      ∀ sh ∈ s.shapes, sh.kind = ShapeKind.rrect →
        sh.w = row_card_width 4 d3b.cards.length) ∧
    (∀ s, slide_5b_stat_columns t d5 = some s →
      ∀ sh ∈ s.shapes, sh.kind = ShapeKind.rrect →
        sh.w = row_card_width 4 d5.cards.length) ∧
    (∀ sh ∈ (slide_10_closing_cta t d10).shapes,
      sh.kind = ShapeKind.rrect → sh.w = (CW - 2 * GAP) / 3) :=
  ⟨widths_slide_3a t d3, widths_slide_3b t d3b, widths_slide_5b t d5,
   widths_slide_10 t d10⟩

/-- Witness for C3 (amended): the first CTA card of a two-card closing
slide keeps the fixed nominal width. -/
theorem row_builders_use_actual_count_witness :
    (⟨ShapeKind.rrect, MG + ((0 : Nat) : ℚ) * ((CW - 2 * GAP) / 3 + GAP),
      2.30, (CW - 2 * GAP) / 3, 4.50, some indigoTheme.card_alt, []⟩ :
        Shape).w = (CW - 2 * GAP) / 3 :=
  (row_builders_use_actual_count indigoTheme ⟨"T", []⟩ ⟨"T", []⟩ ⟨"T", []⟩
      sampleClosingTwoCards).2.2.2 _
    (by simp [slide_10_closing_cta, sampleClosingTwoCards,
      add_card_with_bullets, add_card, add_bullet_text, add_accent_line,
      List.take, List.enum, List.enumFrom]) rfl

/-! ### Assembling the full deck (claim C1) -/

theorem take_length_ne_zero {α : Type} {l : List α} {k : Nat} (hk : k ≠ 0)
    (h : l ≠ []) : (l.take k).length ≠ 0 := by
  rw [List.length_take]
  have := List.length_pos.mpr h
  omega

theorem slide_2b_isSome (t : Theme) (d : CardsSlideData)
    (h : d.cards ≠ []) : ∃ s, slide_2b_left_accent_cards t d = some s := by
  simp only [slide_2b_left_accent_cards]
  rw [if_neg (take_length_ne_zero (by decide) h)]
  exact ⟨_, rfl⟩

theorem slide_3a_isSome (t : Theme) (d : CardsSlideData)
    (h : d.cards ≠ []) : ∃ s, slide_3a_three_cards_row t d = some s := by
  simp only [slide_3a_three_cards_row]
  rw [if_neg (take_length_ne_zero (by decide) h)]
  exact ⟨_, rfl⟩

theorem slide_3b_isSome (t : Theme) (d : CardsSlideData)
    (h : d.cards ≠ []) : ∃ s, slide_3b_four_cards_row t d = some s := by
  simp only [slide_3b_four_cards_row]
  have hne : ¬min (List.take 4 d.cards).length 4 = 0 := by
    rw [List.length_take]
    have := List.length_pos.mpr h
    omega
  rw [if_neg hne]
  exact ⟨_, rfl⟩

theorem slide_5b_isSome (t : Theme) (d : CardsSlideData)
    (h : d.cards ≠ []) : ∃ s, slide_5b_stat_columns t d = some s := by
  simp only [slide_5b_stat_columns]
  rw [if_neg (take_length_ne_zero (by decide) h)]
  exact ⟨_, rfl⟩

theorem slide_6b_isSome (t : Theme) (d : StatSlideData) (img : Option Img)
    (h : d.bullets ≠ []) : ∃ s, slide_6b_cards_banner t d img = some s := by
  simp only [slide_6b_cards_banner]
  have hne : ¬min d.bullets.length 5 = 0 := by
    have := List.length_pos.mpr h
    omega
  rw [if_neg hne]
  exact ⟨_, rfl⟩

theorem slide_8a_isSome (t : Theme) (d : StepsSlideData)
    (h : d.steps ≠ []) : ∃ s, slide_8a_timeline t d = some s := by
  simp only [slide_8a_timeline]
  rw [if_neg (take_length_ne_zero (by decide) h)]
  exact ⟨_, rfl⟩

theorem slide_8b_isSome (t : Theme) (d : StepsSlideData)
    (h : d.steps ≠ []) : ∃ s, slide_8b_step_cards t d = some s := by
  simp only [slide_8b_step_cards]
  rw [if_neg (take_length_ne_zero (by decide) h)]
  exact ⟨_, rfl⟩

theorem pick_slide2_spec (t : Theme) (c : Content) (h : c.s2.cards ≠ []) :
    ∃ s, pick_slide2 t c = some s ∧ hasPageIndicator 2 s = true := by
  unfold pick_slide2
  by_cases hB : wantsB c.designs 2 = true
  · rw [if_pos hB]
    obtain ⟨s, hs⟩ := slide_2b_isSome t c.s2 h
    refine ⟨s, hs, ?_⟩
    have hall := allPage_slide_2b t c.s2
    rw [hs] at hall
    simpa [Option.all] using hall
  · rw [if_neg hB]
    exact ⟨_, rfl, page_slide_2a t c.s2⟩

theorem pick_slide3_spec (t : Theme) (c : Content) (h : c.s3.cards ≠ []) :
    ∃ s, pick_slide3 t c = some s ∧ hasPageIndicator 3 s = true := by
  unfold pick_slide3
  by_cases hB : wantsB c.designs 3 = true
  · rw [if_pos hB]
    obtain ⟨s, hs⟩ := slide_3b_isSome t c.s3 h
    refine ⟨s, hs, ?_⟩
    have hall := allPage_slide_3b t c.s3
    rw [hs] at hall
    simpa [Option.all] using hall
  · rw [if_neg hB]
    obtain ⟨s, hs⟩ := slide_3a_isSome t c.s3 h
    refine ⟨s, hs, ?_⟩
    have hall := allPage_slide_3a t c.s3
    rw [hs] at hall
    simpa [Option.all] using hall

theorem pick_slide4_page (t : Theme) (c : Content) (img : Option Img) :
    hasPageIndicator 4 (pick_slide4 t c img) = true := by
  unfold pick_slide4
  split
  · exact page_slide_4b t c.s4 img
  · exact page_slide_4a t c.s4 img

theorem pick_slide5_spec (t : Theme) (c : Content) (h : c.s5.cards ≠ []) :
    ∃ s, pick_slide5 t c = some s ∧ hasPageIndicator 5 s = true := by
  unfold pick_slide5
  by_cases hB : wantsB c.designs 5 = true
  · rw [if_pos hB]
    obtain ⟨s, hs⟩ := slide_5b_isSome t c.s5 h
    refine ⟨s, hs, ?_⟩
    have hall := allPage_slide_5b t c.s5
    rw [hs] at hall
    simpa [Option.all] using hall
  · rw [if_neg hB]
    exact ⟨_, rfl, page_slide_5a t c.s5⟩

theorem pick_slide6_spec (t : Theme) (c : Content) (img : Option Img)
    (h : c.s6.bullets ≠ []) :
    ∃ s, pick_slide6 t c img = some s ∧ hasPageIndicator 6 s = true := by
  unfold pick_slide6
  by_cases hB : wantsB c.designs 6 = true
  · rw [if_pos hB]
    obtain ⟨s, hs⟩ := slide_6b_isSome t c.s6 img h
    refine ⟨s, hs, ?_⟩
    have hall := allPage_slide_6b t c.s6 img
    rw [hs] at hall
    simpa [Option.all] using hall
  · rw [if_neg hB]
    exact ⟨_, rfl, page_slide_6a t c.s6 img⟩

theorem pick_slide7_page (t : Theme) (c : Content) :
    hasPageIndicator 7 (pick_slide7 t c) = true := by
  unfold pick_slide7
  split
  · exact page_slide_7b t c.s7
  · exact page_slide_7a t c.s7

theorem pick_slide8_spec (t : Theme) (c : Content) (h : c.s8.steps ≠ []) :
    ∃ s, pick_slide8 t c = some s ∧ hasPageIndicator 8 s = true := by
  unfold pick_slide8
  by_cases hB : wantsB c.designs 8 = true
  · rw [if_pos hB]
    obtain ⟨s, hs⟩ := slide_8b_isSome t c.s8 h
    refine ⟨s, hs, ?_⟩
    have hall := allPage_slide_8b t c.s8
    rw [hs] at hall
    simpa [Option.all] using hall
  · rw [if_neg hB]
    obtain ⟨s, hs⟩ := slide_8a_isSome t c.s8 h
    refine ⟨s, hs, ?_⟩
    have hall := allPage_slide_8a t c.s8
    rw [hs] at hall
    simpa [Option.all] using hall

theorem pick_slide9_page (t : Theme) (c : Content) (img : Option Img) :
    hasPageIndicator 9 (pick_slide9 t c img) = true := by
  unfold pick_slide9
  split
  · exact page_slide_9b t c.s9 img
  · exact page_slide_9a t c.s9 img

/-- C1: for every valid ContentDocument — slides 2..10 present with the item
lists their variants require nonempty — the assembler yields a deck of
exactly 10 slides carrying the page indicators 1..10 in index order,
whatever A/B variants the design map selects and whatever images arrive. -/
theorem assemble_produces_ten_slides_in_order (c : Content)
    (images : Nat → Option Img) (h2 : c.s2.cards ≠ [])
    (h3 : c.s3.cards ≠ []) (h5 : c.s5.cards ≠ [])
    (h6 : c.s6.bullets ≠ []) (h8 : c.s8.steps ≠ []) :
    ∃ deck, generate_ppt_assemble c images = some deck ∧
      deck.length = 10 ∧
      ∀ i, i < 10 → ∃ s, deck.get? i = some s ∧
        hasPageIndicator (i + 1) s = true := by
  set t := apply_theme (c.theme.getD "indigo") with ht
  obtain ⟨s2, e2, p2⟩ := pick_slide2_spec t c h2
  obtain ⟨s3, e3, p3⟩ := pick_slide3_spec t c h3
  obtain ⟨s5, e5, p5⟩ := pick_slide5_spec t c h5
  obtain ⟨s6, e6, p6⟩ := pick_slide6_spec t c (images 6) h6
  obtain ⟨s8, e8, p8⟩ := pick_slide8_spec t c h8
  refine ⟨[slide_1_hero_title t c.title c.subtitle (images 1), s2, s3,
    pick_slide4 t c (images 4), s5, s6, pick_slide7 t c, s8,
    pick_slide9 t c (images 9), slide_10_closing_cta t c.s10], ?_, rfl, ?_⟩
  · simp only [generate_ppt_assemble, ← ht, e2, e3, e5, e6, e8,
      Option.some_bind, bind, Option.bind]
  · intro i hi
    interval_cases i
    · exact ⟨_, rfl, page_slide_1 t c.title c.subtitle (images 1)⟩
    · exact ⟨_, rfl, p2⟩
    · exact ⟨_, rfl, p3⟩
    · exact ⟨_, rfl, pick_slide4_page t c (images 4)⟩
    · exact ⟨_, rfl, p5⟩
    · exact ⟨_, rfl, p6⟩
    · exact ⟨_, rfl, pick_slide7_page t c⟩
    · exact ⟨_, rfl, p8⟩
    · exact ⟨_, rfl, pick_slide9_page t c (images 9)⟩
    · exact ⟨_, rfl, page_slide_10 t c.s10⟩

/-- A fully populated valid content document for the end-to-end witness. -/
def sampleContent : Content :=
  { title := "AI in Education", subtitle := "a short intro",
    theme := some "navy", designs := sampleDesigns,
    s2 := ⟨"Overview", [⟨"A", ["a1"]⟩, ⟨"B", ["b1"]⟩, ⟨"C", ["c1"]⟩]⟩,
    s3 := ⟨"Pillars", [⟨"P1", ["x"]⟩, ⟨"P2", ["y"]⟩, ⟨"P3", ["z"]⟩]⟩,
    s4 := ⟨"Detail", ["d1", "d2"]⟩,
    s5 := ⟨"Stats",
      [⟨"50M", ["u"]⟩, ⟨"98%", ["v"]⟩, ⟨"10x", ["w"]⟩, ⟨"2B", ["q"]⟩]⟩,
    s6 := ⟨"Impact", ["i1", "i2"], some "85%", some "adoption"⟩,
    s7 := ⟨"Compare", ⟨"Pro", ["p"]⟩, ⟨"Con", ["c"]⟩⟩,
    s8 := ⟨"Steps", [⟨"S1", ["m"]⟩, ⟨"S2", ["n"]⟩]⟩,
    s9 := ⟨"Outcome", ["o1"], some "2x", some "growth"⟩,
    s10 := ⟨"Act", [⟨"Do", ["g"]⟩]⟩ }

/-- Witness for C1 at the concrete `sampleContent`/`sampleImages`. -/
theorem assemble_produces_ten_slides_in_order_witness :
    ∃ deck, generate_ppt_assemble sampleContent sampleImages = some deck ∧
      deck.length = 10 ∧
      ∀ i, i < 10 → ∃ s, deck.get? i = some s ∧
        hasPageIndicator (i + 1) s = true :=
  assemble_produces_ten_slides_in_order sampleContent sampleImages
    (by simp [sampleContent]) (by simp [sampleContent])
    (by simp [sampleContent]) (by simp [sampleContent])
    (by simp [sampleContent])

end PresentAI
